import Mathlib

/-!
Verification of the multi-agent study assistant (router → memory → specialist
→ synthesizer pipeline) against its natural-language specification.

The Python source is shallowly embedded: pure logic becomes Lean functions,
the LangGraph state channels become an explicit record with the
`operator.add` reducer modelled by an explicit merge function, and every
point where an external language-model call / sandbox call / clock is
consulted is a field of an `Oracle` record, universally quantified in the
theorems.  Python truthiness of optional strings (`if x:`) is modelled by
`optTruthy`; `x is not None` by `Option.isSome`.
-/

namespace MAS

/-- Python substring containment (`needle in hay`) on explicit char lists. -/
def charsInfix (needle : List Char) : List Char → Bool
  | [] => needle.isEmpty
  | c :: rest => needle.isPrefixOf (c :: rest) || charsInfix needle rest

/-- Python `needle in hay` for strings: substring containment. -/
def isSubstrOf (needle hay : String) : Bool :=
  charsInfix needle.toList hay.toList

/-- Python `s.lower()`: per-character lowercasing (ASCII, as in the
queries this system handles).  Implemented on the character list so that it
reduces in the kernel. -/
def pyLower (s : String) : String := ⟨s.data.map Char.toLower⟩

/-- Python `s[:n]`: the first `n` characters, on the character list so
that it reduces in the kernel. -/
def pyTake (s : String) (n : Nat) : String := ⟨s.data.take n⟩

/-- Python truthiness of a string: non-empty. -/
def strTruthy (s : String) : Bool := decide (s ≠ "")

/-- Python truthiness of an `Optional[str]`: present and non-empty. -/
def optTruthy : Option String → Bool
  | none => false
  | some s => strTruthy s

/-- Python `l[-n:]` for `n > 0`: the last `n` elements. -/
def takeLast (l : List α) (n : Nat) : List α := l.drop (l.length - n)

/-- Worker for `pySplit`: accumulates the current word (reversed). -/
def pySplitCore : List Char → List Char → List String
  | [], acc => if acc.isEmpty then [] else [⟨acc.reverse⟩]
  | c :: rest, acc =>
    if c.isWhitespace then
      if acc.isEmpty then pySplitCore rest []
      else ⟨acc.reverse⟩ :: pySplitCore rest []
    else pySplitCore rest (c :: acc)

/-- Python `s.split()` with no separator: whitespace runs, empties dropped. -/
def pySplit (s : String) : List String := pySplitCore s.data []

/-- QueryType enum from src/models.py. -/
inductive QueryType where
  | theory | code | planning | general | memory
deriving DecidableEq, Repr

/-- RoutingDecision from src/models.py. -/
structure RoutingDecision where
  query_type : QueryType
  target_agents : List String
  reasoning : String
  priority : Int := 1
  needs_memory : Bool := false
  needs_tools : Bool := false
deriving DecidableEq, Repr

/-- TheoryExplanation from src/models.py. -/
structure TheoryExplanation where
  concept : String
  explanation : String
  key_points : List String
  examples : List String := []
  related_concepts : List String := []
  difficulty_level : String := "intermediate"
deriving DecidableEq, Repr

/-- CodeHelp from src/models.py. -/
structure CodeHelp where
  problem_description : String
  solution_approach : String
  code_example : Option String := none
  explanation : String
  best_practices : List String := []
  common_pitfalls : List String := []
deriving DecidableEq, Repr

/-- One entry of StudyPlan.steps: a dict accessed with `.get` and a default,
so the fields the synthesizer reads are optional. -/
structure StudyStep where
  step : Option Int := none
  description : Option String := none
  estimated_time : Option String := none
deriving DecidableEq, Repr

/-- StudyPlan from src/models.py. -/
structure StudyPlan where
  goal : String
  steps : List StudyStep
  total_estimated_time : String
  priority_order : List Int
  resources : List String := []
  milestones : List String := []
deriving DecidableEq, Repr

/-- MemoryUpdate from src/models.py.  `value : Optional[Any]` is always a
query string at every call site in the repository, so it is embedded as an
optional string. -/
structure MemoryUpdate where
  action : String
  key : String
  value : Option String := none
  retrieved_context : Option String := none
  reasoning : String
deriving DecidableEq, Repr

/-- FinalResponse from src/models.py. -/
structure FinalResponse where
  answer : String
  agents_involved : List String
  tools_used : List String := []
  memory_accessed : Bool := false
  confidence : String := "medium"
deriving DecidableEq, Repr

/-- One session-history entry stored by MemoryStore.store_interaction. -/
structure Interaction where
  timestamp : String
  query : String
  response : String
  agents : List String
deriving DecidableEq, Repr

/-- Value stored in the user profile: the three predefined keys hold lists;
every value the program itself passes to `update_user_profile` is a string,
so scalar entries are strings. -/
inductive PValue where
  | str (s : String)
  | lst (xs : List String)
deriving DecidableEq, Repr

/-- Insertion-ordered association list modelling the Python dict
`self.memory["user_profile"]`. -/
def profileSet : List (String × PValue) → String → PValue → List (String × PValue)
  | [], k, v => [(k, v)]
  | (k', v') :: rest, k, v =>
    if k' = k then (k, v) :: rest else (k', v') :: profileSet rest k v

/-- Dict lookup in the user profile. -/
def profileGet : List (String × PValue) → String → Option PValue
  | [], _ => none
  | (k', v') :: rest, k => if k' = k then some v' else profileGet rest k

/-- The in-memory MemoryStore state (src/memory.py): session history plus
user profile; the reserved `context` section is unused by all logic. -/
structure MemoryState where
  session_history : List Interaction
  user_profile : List (String × PValue)
deriving DecidableEq, Repr

/-- MemoryStore._init_memory: empty history, three empty profile lists. -/
def initMemory : MemoryState :=
  { session_history := []
    user_profile :=
      [("topics_asked", .lst []), ("coding_languages", .lst []),
       ("study_goals", .lst [])] }

/-- MemoryStore.store_interaction: append (response truncated to 500 chars),
then keep only the last 20 entries. -/
def storeInteraction (m : MemoryState) (ts query response : String)
    (agents : List String) : MemoryState :=
  let h := m.session_history ++ [⟨ts, query, pyTake response 500, agents⟩]
  { m with session_history := if 20 < h.length then takeLast h 20 else h }

/-- MemoryStore.retrieve_recent_context: the last `limit` entries. -/
def retrieveRecent (m : MemoryState) (limit : Nat) : List Interaction :=
  takeLast m.session_history limit

/-- MemoryStore.update_user_profile: list-valued existing entries get a
deduplicated append; any other case stores the raw (string) value. -/
def updateUserProfile (m : MemoryState) (key value : String) : MemoryState :=
  match profileGet m.user_profile key with
  | some (.lst xs) =>
    if value ∈ xs then m
    else { m with user_profile := profileSet m.user_profile key (.lst (xs ++ [value])) }
  | some (.str _) =>
    { m with user_profile := profileSet m.user_profile key (.str value) }
  | none =>
    { m with user_profile := profileSet m.user_profile key (.str value) }

/-- MemoryStore.search_history: case-insensitive substring match against
query and response of every stored entry, in storage order. -/
def searchHistory (m : MemoryState) (keyword : String) : List Interaction :=
  m.session_history.filter (fun i =>
    isSubstrOf (pyLower keyword) (pyLower i.query) ||
    isSubstrOf (pyLower keyword) (pyLower i.response))

/-- Keyword group 1 of RouterAgent.route_query fallback. -/
def theoryKeywords : List String := ["what is", "explain", "concept", "theory", "how does"]

/-- Keyword group 2 of RouterAgent.route_query fallback. -/
def codeKeywords : List String := ["code", "implement", "python", "function", "debug", "syntax"]

/-- Keyword group 3 of RouterAgent.route_query fallback. -/
def planKeywords : List String := ["plan", "schedule", "learn", "study", "steps"]

/-- Python `any(word in query_lower for word in words)`. -/
def anyKeyword (words : List String) (queryLower : String) : Bool :=
  words.any (fun w => isSubstrOf w queryLower)

/-- RouterAgent.route_query fallback branch: ordered keyword matching over
the lowercased query; `needs_memory` iff recent context non-empty;
`needs_tools` always false. -/
def routeQueryFallback (query : String) (recentContext : List Interaction) :
    RoutingDecision :=
  let ql := pyLower query
  if anyKeyword theoryKeywords ql then
    { query_type := .theory, target_agents := ["theory_explainer"],
      reasoning := "Fallback routing based on keywords", priority := 1,
      needs_memory := decide (0 < recentContext.length), needs_tools := false }
  else if anyKeyword codeKeywords ql then
    { query_type := .code, target_agents := ["code_helper"],
      reasoning := "Fallback routing based on keywords", priority := 1,
      needs_memory := decide (0 < recentContext.length), needs_tools := false }
  else if anyKeyword planKeywords ql then
    { query_type := .planning, target_agents := ["planner"],
      reasoning := "Fallback routing based on keywords", priority := 1,
      needs_memory := decide (0 < recentContext.length), needs_tools := false }
  else
    { query_type := .general, target_agents := ["theory_explainer"],
      reasoning := "Fallback routing based on keywords", priority := 1,
      needs_memory := decide (0 < recentContext.length), needs_tools := false }

/-- RouterAgent.route_query: the language-model call is the oracle value
`llm`; on generator failure (`none`) the deterministic keyword fallback runs
over the 2 most recent context entries. -/
def routeQuery (mem : MemoryState) (query : String)
    (llm : Option RoutingDecision) : RoutingDecision :=
  let recent := retrieveRecent mem 2
  match llm with
  | some d => d
  | none => routeQueryFallback query recent

/-- TheoryExplainerAgent.explain fallback instance. -/
def fallbackTheory (query : String) : TheoryExplanation :=
  { concept := if isSubstrOf "?" query then ⟨query.data.takeWhile (fun c => c ≠ '?')⟩
               else pyTake query 50
    explanation := "I\x27ll help explain this concept. Let me provide a clear explanation..."
    key_points := ["Key point 1", "Key point 2"]
    examples := []
    related_concepts := []
    difficulty_level := "intermediate" }

/-- TheoryExplainerAgent.explain: generator result or canned fallback. -/
def explainTheory (query : String) (gen : Option TheoryExplanation) :
    TheoryExplanation :=
  match gen with
  | some e => e
  | none => fallbackTheory query

/-- CodeHelperAgent.help_with_code fallback instance. -/
def fallbackCodeHelp (query : String) : CodeHelp :=
  { problem_description := query
    solution_approach := "Analyze the problem step by step"
    code_example := none
    explanation := "I\x27ll help you with this coding question."
    best_practices := []
    common_pitfalls := [] }

/-- CodeHelperAgent.help_with_code: generator result, then, when the code
example is truthy and contains "print" (case-insensitive), the sandbox is
invoked; on a successful execution (`execResult = some out`) its output is
appended to the explanation.  Generator failure yields the canned fallback
(no sandbox call). -/
def helpWithCode (query : String) (gen : Option CodeHelp)
    (execResult : Option String) : CodeHelp :=
  match gen with
  | none => fallbackCodeHelp query
  | some ch =>
    if optTruthy ch.code_example &&
       isSubstrOf "print" (pyLower (ch.code_example.getD "")) then
      match execResult with
      | some out =>
        { ch with explanation := ch.explanation ++ "\n\nExecution result: " ++ out }
      | none => ch
    else ch

/-- PlannerAgent.create_plan fallback instance. -/
def fallbackPlan (query : String) : StudyPlan :=
  { goal := query
    steps :=
      [{ step := some 1, description := some "Understand basics",
         estimated_time := some "2 hours" },
       { step := some 2, description := some "Practice examples",
         estimated_time := some "3 hours" }]
    total_estimated_time := "5 hours"
    priority_order := [1, 2]
    resources := []
    milestones := [] }

/-- PlannerAgent.create_plan: generator result or canned fallback; the
schedule-tool formatting result is computed and discarded by the source, so
it has no observable effect. -/
def createPlan (query : String) (gen : Option StudyPlan) : StudyPlan :=
  match gen with
  | some p => p
  | none => fallbackPlan query

/-- Memory-action keywords for the store branch of manage_memory. -/
def storeKeywords : List String := ["remember", "store", "save"]

/-- Memory-action keywords for the explicit retrieve branch of manage_memory. -/
def retrieveKeywords : List String := ["what did", "previous", "earlier", "before"]

/-- MemoryManagerAgent.manage_memory with a memory store attached (the
orchestrator always attaches one in `__init__`).  Deterministic: action
resolution, then the retrieve / store / none branch. -/
def manageMemory (mem : MemoryState) (query action : String) : MemoryUpdate :=
  let ql := pyLower query
  let action :=
    if action = "auto" then
      if anyKeyword storeKeywords ql then "store"
      else if anyKeyword retrieveKeywords ql then "retrieve"
      else "retrieve"
    else action
  if action = "retrieve" then
    let recent := retrieveRecent mem 3
    let contextParts := recent.map (fun c => "Q: " ++ c.query ++ "\nA: " ++ pyTake c.response 200)
    let base :=
      if contextParts.isEmpty then "No previous context found"
      else String.intercalate "\n" contextParts
    let keywords := (pySplit ql).filter (fun w => 3 < w.length)
    let searchResults := (keywords.take 2).flatMap (fun kw => searchHistory mem kw)
    let retrieved :=
      if searchResults.isEmpty then base
      else base ++ "\n\nRelated previous discussions:\n" ++
        String.join ((searchResults.take 2).map (fun r => "- " ++ pyTake r.query 100 ++ "\n"))
    { action := "retrieve", key := "session_context", value := none,
      retrieved_context := some retrieved,
      reasoning := "Retrieved recent session history and related discussions" }
  else if action = "store" then
    { action := "store", key := "user_preference", value := some query,
      retrieved_context := none,
      reasoning := "Storing user preference or information" }
  else
    { action := "none", key := "", value := none, retrieved_context := none,
      reasoning := "No memory action needed" }

/-- The LangGraph channel state MultiAgentState from src/graph.py. -/
structure MultiAgentState where
  user_query : String
  routing_decision : Option RoutingDecision := none
  theory_explanation : Option TheoryExplanation := none
  code_help : Option CodeHelp := none
  study_plan : Option StudyPlan := none
  memory_update : Option MemoryUpdate := none
  memory_context : Option String := none
  final_response : Option FinalResponse := none
  agents_involved : List String := []
  tools_used : List String := []
  error : Option String := none
deriving DecidableEq, Repr

/-- LangGraph channel update: `agents_involved` and `tools_used` are
`Annotated[..., operator.add]` channels, so the value a node returns is
appended to the current channel value; every other key is last-value. -/
def mergeState (cur ret : MultiAgentState) : MultiAgentState :=
  { ret with
    agents_involved := cur.agents_involved ++ ret.agents_involved
    tools_used := cur.tools_used ++ ret.tools_used }

/-- Every external / failable event of one run: each generator call is an
opaque value (`none` = that call failed), each node-level `except` branch is
an optional exception message, the sandbox run is an optional output
(`none` = unsuccessful), and `now` is the wall-clock timestamp. -/
structure Oracle where
  routerGen : Option RoutingDecision := none
  routerNodeFail : Option String := none
  memoryNodeFail : Option String := none
  theoryGen : Option TheoryExplanation := none
  theoryNodeFail : Option String := none
  codeGen : Option CodeHelp := none
  codeExec : Option String := none
  codeNodeFail : Option String := none
  plannerGen : Option StudyPlan := none
  plannerNodeFail : Option String := none
  synthFail : Option String := none
  now : String := ""
deriving Repr

/-- MultiAgentSystem.router_node: on success records the routing decision
and appends "router"; on internal failure records the error and a default
general/[theory_explainer] decision. -/
def routerNode (s : MultiAgentState) (mem : MemoryState) (o : Oracle) :
    MultiAgentState :=
  match o.routerNodeFail with
  | some msg =>
    mergeState s
      { s with error := some ("Router error: " ++ msg)
               routing_decision := some
                 { query_type := .general, target_agents := ["theory_explainer"],
                   reasoning := "Fallback routing", priority := 1,
                   needs_memory := false, needs_tools := false } }
  | none =>
    mergeState s
      { s with routing_decision := some (routeQuery mem s.user_query o.routerGen)
               agents_involved := ["router"] }

/-- MultiAgentSystem.memory_manager_node: forces action "retrieve" when the
routing decision asked for memory, otherwise "auto"; on a store action with
a truthy value writes the profile key "user_preferences"; on internal
failure clears `memory_context` and records the error. -/
def memoryManagerNode (s : MultiAgentState) (mem : MemoryState) (o : Oracle) :
    MultiAgentState × MemoryState :=
  match o.memoryNodeFail with
  | some msg =>
    (mergeState s { s with memory_context := none
                           error := some ("Memory error: " ++ msg) }, mem)
  | none =>
    let action :=
      match s.routing_decision with
      | some r => if r.needs_memory then "retrieve" else "auto"
      | none => "auto"
    let mu := manageMemory mem s.user_query action
    let mem' :=
      if mu.action = "store" && optTruthy mu.value then
        updateUserProfile mem "user_preferences" (mu.value.getD "")
      else mem
    (mergeState s
      { s with memory_update := some mu
               memory_context := mu.retrieved_context
               agents_involved := ["memory_manager"] }, mem')

/-- MultiAgentSystem.theory_explainer_node. -/
def theoryExplainerNode (s : MultiAgentState) (mem : MemoryState) (o : Oracle) :
    MultiAgentState × MemoryState :=
  match o.theoryNodeFail with
  | some msg =>
    (mergeState s { s with error := some ("Theory explainer error: " ++ msg) }, mem)
  | none =>
    let exp := explainTheory s.user_query o.theoryGen
    let mem' := updateUserProfile mem "topics_asked" exp.concept
    (mergeState s
      { s with theory_explanation := some exp
               agents_involved := ["theory_explainer"] }, mem')

/-- MultiAgentSystem.code_helper_node: profile update iff the query contains
"python" (case-insensitive); "code_executor" appended to tools iff the code
example is truthy. -/
def codeHelperNode (s : MultiAgentState) (mem : MemoryState) (o : Oracle) :
    MultiAgentState × MemoryState :=
  match o.codeNodeFail with
  | some msg =>
    (mergeState s { s with error := some ("Code helper error: " ++ msg) }, mem)
  | none =>
    let ch := helpWithCode s.user_query o.codeGen o.codeExec
    let mem' :=
      if isSubstrOf "python" (pyLower s.user_query) then
        updateUserProfile mem "coding_languages" "Python"
      else mem
    let tools :=
      if optTruthy ch.code_example then s.tools_used ++ ["code_executor"]
      else s.tools_used
    (mergeState s
      { s with code_help := some ch
               agents_involved := ["code_helper"]
               tools_used := tools }, mem')

/-- MultiAgentSystem.planner_node: appends the plan goal to "study_goals"
and marks "schedule_tool" used unconditionally. -/
def plannerNode (s : MultiAgentState) (mem : MemoryState) (o : Oracle) :
    MultiAgentState × MemoryState :=
  match o.plannerNodeFail with
  | some msg =>
    (mergeState s { s with error := some ("Planner error: " ++ msg) }, mem)
  | none =>
    let plan := createPlan s.user_query o.plannerGen
    let mem' := updateUserProfile mem "study_goals" plan.goal
    (mergeState s
      { s with study_plan := some plan
               agents_involved := ["planner"]
               tools_used := s.tools_used ++ ["schedule_tool"] }, mem')

/-- The answer sections the synthesizer appends, in source order:
theory, code help, study plan, memory context. -/
def synthParts (s : MultiAgentState) : List String :=
  (match s.theory_explanation with
   | some exp =>
     ["## Explanation: " ++ exp.concept ++ "\n\n" ++ exp.explanation ++ "\n\n",
      "**Key Points:**\n" ++
        String.intercalate "\n" (exp.key_points.map (fun p => "- " ++ p)) ++ "\n\n"]
     ++ (if exp.examples.isEmpty then []
         else ["**Examples:**\n" ++
           String.intercalate "\n" (exp.examples.map (fun e => "- " ++ e)) ++ "\n\n"])
   | none => [])
  ++ (match s.code_help with
      | some ch =>
        ["## Code Help\n\n" ++ ch.explanation ++ "\n\n",
         "**Approach:** " ++ ch.solution_approach ++ "\n\n"]
        ++ (if optTruthy ch.code_example then
              ["**Code Example:**\n```python\n" ++ ch.code_example.getD "" ++ "\n```\n\n"]
            else [])
        ++ (if ch.best_practices.isEmpty then []
            else ["**Best Practices:**\n" ++
              String.intercalate "\n" (ch.best_practices.map (fun p => "- " ++ p)) ++ "\n\n"])
      | none => [])
  ++ (match s.study_plan with
      | some sp =>
        ["## Study Plan: " ++ sp.goal ++ "\n\n"]
        ++ (List.enumFrom 1 sp.steps).flatMap (fun si =>
             ["**Step " ++ toString si.1 ++ ":** " ++ si.2.description.getD "N/A" ++ "\n",
              "   Estimated time: " ++ si.2.estimated_time.getD "N/A" ++ "\n\n"])
        ++ ["**Total estimated time:** " ++ sp.total_estimated_time ++ "\n\n"]
        ++ (if sp.resources.isEmpty then []
            else ["**Resources:**\n" ++
              String.intercalate "\n" (sp.resources.map (fun r => "- " ++ r)) ++ "\n\n"])
      | none => [])
  ++ (match s.memory_update with
      | some mu =>
        if optTruthy mu.retrieved_context then
          ["## Context from Previous Conversations\n\n" ++
            pyTake (mu.retrieved_context.getD "") 300 ++ "...\n\n"]
        else []
      | none => [])

/-- The agents-used list the synthesizer re-derives from populated result
fields, in the same pass and order as `synthParts`. -/
def agentsUsed (s : MultiAgentState) : List String :=
  (if s.theory_explanation.isSome then ["theory_explainer"] else [])
  ++ (if s.code_help.isSome then ["code_helper"] else [])
  ++ (if s.study_plan.isSome then ["planner"] else [])
  ++ (if (match s.memory_update with
          | some mu => optTruthy mu.retrieved_context
          | none => false) then ["memory_manager"] else [])

/-- The final answer text: the joined sections, or the literal no-specialist
fallback prompt when no section is present. -/
def finalAnswer (s : MultiAgentState) : String :=
  let parts := synthParts s
  if parts.isEmpty then "I\x27m here to help! Could you provide more details?"
  else String.join parts

/-- The FinalResponse the synthesizer builds on its success path.  Python
`list(set(...))` has unspecified ordering, so it is modelled by `dedup`;
no property below depends on the order of the deduplicated lists. -/
def mkFinalResponse (s : MultiAgentState) : FinalResponse :=
  { answer := finalAnswer s
    agents_involved := (agentsUsed s ++ s.agents_involved).dedup
    tools_used := s.tools_used.dedup
    memory_accessed := s.memory_context.isSome
    confidence :=
      if optTruthy s.error then "low"
      else if 1 < (agentsUsed s).length then "high"
      else "medium" }

/-- MultiAgentSystem.synthesizer_node: on success builds the FinalResponse
and appends the interaction to session history; if the merge logic itself
throws, returns the literal error FinalResponse and skips the history
write. -/
def synthesizerNode (s : MultiAgentState) (mem : MemoryState) (o : Oracle) :
    MultiAgentState × MemoryState :=
  match o.synthFail with
  | some msg =>
    (mergeState s
      { s with error := some ("Synthesizer error: " ++ msg)
               final_response := some
                 { answer := "Error generating response: " ++ msg
                   agents_involved := s.agents_involved
                   tools_used := s.tools_used
                   memory_accessed := false
                   confidence := "low" } }, mem)
  | none =>
    let fr := mkFinalResponse s
    (mergeState s { s with final_response := some fr },
     storeInteraction mem o.now s.user_query fr.answer fr.agents_involved)

/-- MultiAgentSystem.route_after_router. -/
def routeAfterRouter (s : MultiAgentState) : String :=
  match s.routing_decision with
  | none => "synthesizer"
  | some routing =>
    if routing.needs_memory then "memory_manager"
    else
      match routing.target_agents with
      | [] => "synthesizer"
      | agent :: _ =>
        if agent = "theory_explainer" then "theory_explainer"
        else if agent = "code_helper" then "code_helper"
        else if agent = "planner" then "planner"
        else "synthesizer"

/-- MultiAgentSystem.route_after_memory. -/
def routeAfterMemory (s : MultiAgentState) : String :=
  match s.routing_decision with
  | none => "synthesizer"
  | some routing =>
    match routing.target_agents with
    | [] => "synthesizer"
    | agent :: _ =>
      if agent = "theory_explainer" then "theory_explainer"
      else if agent = "code_helper" then "code_helper"
      else if agent = "planner" then "planner"
      else "synthesizer"

/-- The initial state built by process_query. -/
def initialState (q : String) : MultiAgentState := { user_query := q }

/-- Dispatch to the specialist node the routing function named; the
"synthesizer" (or unrecognized) case goes straight through. -/
def runSpecialist (name : String) (s : MultiAgentState) (mem : MemoryState)
    (o : Oracle) : MultiAgentState × MemoryState :=
  if name = "theory_explainer" then theoryExplainerNode s mem o
  else if name = "code_helper" then codeHelperNode s mem o
  else if name = "planner" then plannerNode s mem o
  else (s, mem)

/-- The pipeline up to (not including) the synthesizer: router, the
conditional memory stage, then the selected specialist. -/
def runUntilSynth (q : String) (mem : MemoryState) (o : Oracle) :
    MultiAgentState × MemoryState :=
  let s1 := routerNode (initialState q) mem o
  let nxt := routeAfterRouter s1
  if nxt = "memory_manager" then
    let p := memoryManagerNode s1 mem o
    runSpecialist (routeAfterMemory p.1) p.1 p.2 o
  else
    runSpecialist nxt s1 mem o

/-- MultiAgentSystem.process_query: one full orchestration run over the
compiled graph, returning the final channel state and memory store. -/
def runPipeline (q : String) (mem : MemoryState) (o : Oracle) :
    MultiAgentState × MemoryState :=
  let p := runUntilSynth q mem o
  synthesizerNode p.1 p.2 o

/-- The history entry `store_interaction` constructs from a call record. -/
def truncEntry (c : Interaction) : Interaction :=
  { c with response := pyTake c.response 500 }

/-- Fold a sequence of store_interaction calls over a store state. -/
def storeAllFrom (m : MemoryState) (calls : List Interaction) : MemoryState :=
  calls.foldl (fun acc c => storeInteraction acc c.timestamp c.query c.response c.agents) m

/-- Fold a sequence of store_interaction calls over a fresh store. -/
def storeAll (calls : List Interaction) : MemoryState :=
  storeAllFrom initMemory calls

/-- Sample history entry used to instantiate universally quantified claims. -/
def sampleInteraction : Interaction :=
  ⟨"2024-01-01T00:00:00", "What is recursion?", "Recursion is ...", ["router"]⟩

/-- A generator-produced routing decision that targets the memory manager
and requests memory, as the router model may return for a memory query. -/
def rdToMemory : RoutingDecision :=
  { query_type := .memory, target_agents := ["memory_manager"],
    reasoning := "memory query", priority := 1,
    needs_memory := true, needs_tools := false }

/-- Run events exhibiting a retrieve followed by a synthesizer failure. -/
def oracleC4cx : Oracle :=
  { routerGen := some rdToMemory, synthFail := some "boom", now := "t0" }

/-- Run events exhibiting a retrieve with a healthy synthesizer. -/
def oracleC4w : Oracle := { routerGen := some rdToMemory, now := "t0" }

/-- The final response of the healthy retrieve run. -/
def frC4w : FinalResponse :=
  mkFinalResponse (runUntilSynth "what did we discuss" initMemory oracleC4w).1

/-- Run events with a failing theory stage (records an error). -/
def oracleC3w : Oracle := { theoryNodeFail := some "llm down", now := "t0" }

/-- The final response of the failing-theory run. -/
def frC3w : FinalResponse :=
  mkFinalResponse (runUntilSynth "hi" initMemory oracleC3w).1

/-- Run events with a synthesizer-internal failure after a plain run. -/
def oracleC6w : Oracle := { synthFail := some "merge blew up", now := "t0" }

/-- Run events for the store scenario: router model sends the query to the
memory manager, nothing fails. -/
def oracleC7 : Oracle := { routerGen := some rdToMemory, now := "t0" }

/-- A generator-produced code result whose example has no print call. -/
def chNoPrint : CodeHelp :=
  { problem_description := "p", solution_approach := "a",
    code_example := some "x = 1", explanation := "e" }

/-- Run events where the code generator returns `chNoPrint`. -/
def oracleC8cx : Oracle := { codeGen := some chNoPrint, now := "t0" }

/-- A generator-produced code result whose example has a print call. -/
def chPrint : CodeHelp :=
  { problem_description := "p", solution_approach := "a",
    code_example := some "print(1)", explanation := "e" }

/-- Run events where the code generator returns `chPrint` and the sandbox
run succeeds with output "1\n". -/
def oracleC8w : Oracle :=
  { codeGen := some chPrint, codeExec := some "1\n", now := "t0" }

/-- A channel state as it reaches the code helper node. -/
def stateC8 : MultiAgentState :=
  { user_query := "write python code", agents_involved := ["router"] }

/-- Twenty-one distinct store_interaction call records. -/
def calls21 : List Interaction :=
  (List.range 21).map (fun i => ⟨toString i, "q" ++ toString i, "r" ++ toString i, []⟩)

end MAS

namespace MAS

/-! Helper lemmas: list/string facts and per-node invariants of the
orchestration pipeline. -/

/-- Appending with a non-empty left part never yields the empty string. -/
theorem optTruthy_some_append (p m : String) (hp : p.data ≠ []) :
    optTruthy (some (p ++ m)) = true := by
  simp [optTruthy, strTruthy]
  intro h
  have hd : (p ++ m).data = ([] : List Char) := by rw [h]
  rw [String.data_append] at hd
  exact hp (List.append_eq_nil.mp hd).1

/-- Taking the last `n` after appending one element commutes with having
already taken the last `n`. -/
theorem takeLast_concat {α : Type} (l : List α) (e : α) (n : Nat) :
    takeLast (takeLast l n ++ [e]) n = takeLast (l ++ [e]) n := by
  unfold takeLast
  rcases Nat.lt_or_ge l.length n with hk | hk
  · have h1 : l.length - n = 0 := by omega
    simp [h1]
  · rcases Nat.eq_zero_or_pos n with hn | hn
    · subst hn
      simp [List.drop_length]
    · have hlen : (l.drop (l.length - n)).length = n := by
        rw [List.length_drop]; omega
      rw [List.length_append, List.length_append, hlen, List.length_singleton]
      have h2 : n + 1 - n = 1 := by omega
      rw [h2]
      have h3 : (1 : Nat) ≤ (l.drop (l.length - n)).length := by omega
      rw [List.drop_append_of_le_length h3]
      rw [List.drop_drop]
      have h4 : l.length + 1 - n ≤ l.length := by omega
      rw [List.drop_append_of_le_length h4]
      congr 2
      omega

/-- `takeLast` is the identity on lists that already fit the bound. -/
theorem takeLast_of_le {α : Type} (l : List α) (n : Nat) (h : l.length ≤ n) :
    takeLast l n = l := by
  unfold takeLast
  have h0 : l.length - n = 0 := by omega
  rw [h0, List.drop_zero]

/-- One `store_interaction` always leaves exactly the last 20 of the
extended history. -/
theorem storeInteraction_hist (m : MemoryState) (c : Interaction) :
    (storeInteraction m c.timestamp c.query c.response c.agents).session_history =
      takeLast (m.session_history ++ [truncEntry c]) 20 := by
  have hce : (⟨c.timestamp, c.query, pyTake c.response 500, c.agents⟩ : Interaction) = truncEntry c := rfl
  unfold storeInteraction
  rw [hce]
  simp only []
  split
  · rfl
  · next hle =>
    unfold takeLast
    have h0 : (m.session_history ++ [truncEntry c]).length - 20 = 0 := by
      rw [List.length_append, List.length_singleton] at hle ⊢
      omega
    rw [h0, List.drop_zero]

/-- Folding stores over a bounded history yields the last 20 of the fully
extended history. -/
theorem storeAllFrom_hist (m : MemoryState) (hm : m.session_history.length ≤ 20)
    (calls : List Interaction) :
    (storeAllFrom m calls).session_history =
      takeLast (m.session_history ++ calls.map truncEntry) 20 := by
  induction calls using List.reverseRecOn with
  | nil =>
    simp [storeAllFrom, takeLast_of_le _ _ hm]
  | append_singleton xs c ih =>
    have hstep : storeAllFrom m (xs ++ [c]) =
        storeInteraction (storeAllFrom m xs) c.timestamp c.query c.response c.agents := by
      simp [storeAllFrom, List.foldl_append]
    rw [hstep, storeInteraction_hist, ih, takeLast_concat, List.append_assoc,
      List.map_append, List.map_singleton]

/-- A keyword group fires as soon as one of its members is contained. -/
theorem mem_imp_any (ws : List String) (w ql : String) (hw : w ∈ ws)
    (h : isSubstrOf w ql = true) : anyKeyword ws ql = true := by
  simp [anyKeyword, List.any_eq_true]
  exact ⟨w, hw, h⟩

/-- The router node records only well-formed (non-empty) error strings. -/
theorem errOk_routerNode (s : MultiAgentState) (mem : MemoryState) (o : Oracle)
    (h : optTruthy s.error = s.error.isSome) :
    optTruthy (routerNode s mem o).error = ((routerNode s mem o).error).isSome := by
  cases hf : o.routerNodeFail with
  | none => simpa [routerNode, mergeState, hf] using h
  | some m =>
    simp [routerNode, mergeState, hf]
    exact optTruthy_some_append _ _ (by decide)

/-- The memory node records only well-formed (non-empty) error strings. -/
theorem errOk_memoryManagerNode (s : MultiAgentState) (mem : MemoryState) (o : Oracle)
    (h : optTruthy s.error = s.error.isSome) :
    optTruthy (memoryManagerNode s mem o).1.error =
      ((memoryManagerNode s mem o).1.error).isSome := by
  cases hf : o.memoryNodeFail with
  | none => simpa [memoryManagerNode, mergeState, hf] using h
  | some m =>
    simp [memoryManagerNode, mergeState, hf]
    exact optTruthy_some_append _ _ (by decide)

/-- The theory node records only well-formed (non-empty) error strings. -/
theorem errOk_theoryExplainerNode (s : MultiAgentState) (mem : MemoryState) (o : Oracle)
    (h : optTruthy s.error = s.error.isSome) :
    optTruthy (theoryExplainerNode s mem o).1.error =
      ((theoryExplainerNode s mem o).1.error).isSome := by
  cases hf : o.theoryNodeFail with
  | none => simpa [theoryExplainerNode, mergeState, hf] using h
  | some m =>
    simp [theoryExplainerNode, mergeState, hf]
    exact optTruthy_some_append _ _ (by decide)

/-- The code node records only well-formed (non-empty) error strings. -/
theorem errOk_codeHelperNode (s : MultiAgentState) (mem : MemoryState) (o : Oracle)
    (h : optTruthy s.error = s.error.isSome) :
    optTruthy (codeHelperNode s mem o).1.error =
      ((codeHelperNode s mem o).1.error).isSome := by
  cases hf : o.codeNodeFail with
  | none => simpa [codeHelperNode, mergeState, hf] using h
  | some m =>
    simp [codeHelperNode, mergeState, hf]
    exact optTruthy_some_append _ _ (by decide)

/-- The planner node records only well-formed (non-empty) error strings. -/
theorem errOk_plannerNode (s : MultiAgentState) (mem : MemoryState) (o : Oracle)
    (h : optTruthy s.error = s.error.isSome) :
    optTruthy (plannerNode s mem o).1.error =
      ((plannerNode s mem o).1.error).isSome := by
  cases hf : o.plannerNodeFail with
  | none => simpa [plannerNode, mergeState, hf] using h
  | some m =>
    simp [plannerNode, mergeState, hf]
    exact optTruthy_some_append _ _ (by decide)

/-- Specialist dispatch preserves well-formedness of the error slot. -/
theorem errOk_runSpecialist (n : String) (s : MultiAgentState) (mem : MemoryState)
    (o : Oracle) (h : optTruthy s.error = s.error.isSome) :
    optTruthy (runSpecialist n s mem o).1.error =
      ((runSpecialist n s mem o).1.error).isSome := by
  unfold runSpecialist
  split
  · exact errOk_theoryExplainerNode s mem o h
  · split
    · exact errOk_codeHelperNode s mem o h
    · split
      · exact errOk_plannerNode s mem o h
      · exact h

/-- Before synthesis, the error slot is either empty or a non-empty string,
so Python truthiness of the slot coincides with presence. -/
theorem errOk_runUntilSynth (q : String) (mem : MemoryState) (o : Oracle) :
    optTruthy (runUntilSynth q mem o).1.error =
      ((runUntilSynth q mem o).1.error).isSome := by
  have h1 := errOk_routerNode (initialState q) mem o rfl
  unfold runUntilSynth
  by_cases hb : routeAfterRouter (routerNode (initialState q) mem o) = "memory_manager"
  · simp only [hb, if_pos]
    exact errOk_runSpecialist _ _ _ _ (errOk_memoryManagerNode _ _ _ h1)
  · simp only [hb, if_neg, if_false]
    exact errOk_runSpecialist _ _ _ _ h1

/-- `update_user_profile` never touches the session history. -/
theorem hist_updateUserProfile (m : MemoryState) (k v : String) :
    (updateUserProfile m k v).session_history = m.session_history := by
  unfold updateUserProfile
  rcases h : profileGet m.user_profile k with _ | pv
  · simp [h]
  · cases pv <;> simp [h]
    split <;> rfl

/-- The memory node never touches the session history. -/
theorem hist_memoryManagerNode (s : MultiAgentState) (mem : MemoryState) (o : Oracle) :
    (memoryManagerNode s mem o).2.session_history = mem.session_history := by
  cases hf : o.memoryNodeFail <;> simp [memoryManagerNode, hf]
  split
  · exact hist_updateUserProfile _ _ _
  · rfl

/-- The theory node never touches the session history. -/
theorem hist_theoryExplainerNode (s : MultiAgentState) (mem : MemoryState) (o : Oracle) :
    (theoryExplainerNode s mem o).2.session_history = mem.session_history := by
  cases hf : o.theoryNodeFail <;> simp [theoryExplainerNode, hf, hist_updateUserProfile]

/-- The code node never touches the session history. -/
theorem hist_codeHelperNode (s : MultiAgentState) (mem : MemoryState) (o : Oracle) :
    (codeHelperNode s mem o).2.session_history = mem.session_history := by
  cases hf : o.codeNodeFail <;> simp [codeHelperNode, hf]
  split
  · exact hist_updateUserProfile _ _ _
  · rfl

/-- The planner node never touches the session history. -/
theorem hist_plannerNode (s : MultiAgentState) (mem : MemoryState) (o : Oracle) :
    (plannerNode s mem o).2.session_history = mem.session_history := by
  cases hf : o.plannerNodeFail <;> simp [plannerNode, hf, hist_updateUserProfile]

/-- Specialist dispatch never touches the session history. -/
theorem hist_runSpecialist (n : String) (s : MultiAgentState) (mem : MemoryState)
    (o : Oracle) :
    (runSpecialist n s mem o).2.session_history = mem.session_history := by
  unfold runSpecialist
  split
  · exact hist_theoryExplainerNode s mem o
  · split
    · exact hist_codeHelperNode s mem o
    · split
      · exact hist_plannerNode s mem o
      · rfl

/-- No stage before the synthesizer writes to the session history. -/
theorem hist_runUntilSynth (q : String) (mem : MemoryState) (o : Oracle) :
    (runUntilSynth q mem o).2.session_history = mem.session_history := by
  unfold runUntilSynth
  by_cases hb : routeAfterRouter (routerNode (initialState q) mem o) = "memory_manager"
  · simp only [hb, if_pos]
    rw [hist_runSpecialist]
    exact hist_memoryManagerNode _ _ _
  · simp only [hb, if_neg, if_false]
    exact hist_runSpecialist _ _ _ _

/-- The theory node leaves `memory_context` unchanged. -/
theorem mc_theoryExplainerNode (s : MultiAgentState) (mem : MemoryState) (o : Oracle) :
    (theoryExplainerNode s mem o).1.memory_context = s.memory_context := by
  cases hf : o.theoryNodeFail <;> simp [theoryExplainerNode, mergeState, hf]

/-- The code node leaves `memory_context` unchanged. -/
theorem mc_codeHelperNode (s : MultiAgentState) (mem : MemoryState) (o : Oracle) :
    (codeHelperNode s mem o).1.memory_context = s.memory_context := by
  cases hf : o.codeNodeFail <;> simp [codeHelperNode, mergeState, hf]

/-- The planner node leaves `memory_context` unchanged. -/
theorem mc_plannerNode (s : MultiAgentState) (mem : MemoryState) (o : Oracle) :
    (plannerNode s mem o).1.memory_context = s.memory_context := by
  cases hf : o.plannerNodeFail <;> simp [plannerNode, mergeState, hf]

/-- Specialist dispatch leaves `memory_context` unchanged. -/
theorem mc_runSpecialist (n : String) (s : MultiAgentState) (mem : MemoryState)
    (o : Oracle) :
    (runSpecialist n s mem o).1.memory_context = s.memory_context := by
  unfold runSpecialist
  split
  · exact mc_theoryExplainerNode s mem o
  · split
    · exact mc_codeHelperNode s mem o
    · split
      · exact mc_plannerNode s mem o
      · rfl

/-- The router node leaves `memory_context` unchanged. -/
theorem mc_routerNode (s : MultiAgentState) (mem : MemoryState) (o : Oracle) :
    (routerNode s mem o).memory_context = s.memory_context := by
  cases hf : o.routerNodeFail <;> simp [routerNode, mergeState, hf]

/-- Routing to the memory manager requires a decision with needs_memory. -/
theorem routed_memory_needs (s : MultiAgentState)
    (h : routeAfterRouter s = "memory_manager") :
    ∃ r, s.routing_decision = some r ∧ r.needs_memory = true := by
  unfold routeAfterRouter at h
  rcases hr : s.routing_decision with _ | r
  · rw [hr] at h; exact absurd h (by decide)
  · rw [hr] at h
    by_cases hn : r.needs_memory
    · exact ⟨r, rfl, hn⟩
    · exfalso
      simp only [hn, if_false, Bool.false_eq_true] at h
      rcases hta : r.target_agents with _ | ⟨a, rest⟩ <;> rw [hta] at h
      · exact absurd h (by decide)
      · by_cases h1 : a = "theory_explainer" <;> by_cases h2 : a = "code_helper" <;>
        by_cases h3 : a = "planner" <;> simp [h1, h2, h3] at h

/-- A memory stage entered from a needs_memory decision always performs a
retrieve and so always produces a non-null context. -/
theorem mc_memoryManagerNode_ok (s : MultiAgentState) (mem : MemoryState) (o : Oracle)
    (hf : o.memoryNodeFail = none) (r : RoutingDecision)
    (hr : s.routing_decision = some r) (hn : r.needs_memory = true) :
    ((memoryManagerNode s mem o).1.memory_context).isSome = true := by
  simp [memoryManagerNode, mergeState, hf, hr, hn, manageMemory]

/-- A failing memory stage clears the context. -/
theorem mc_memoryManagerNode_fail (s : MultiAgentState) (mem : MemoryState) (o : Oracle)
    (m : String) (hf : o.memoryNodeFail = some m) :
    (memoryManagerNode s mem o).1.memory_context = none := by
  simp [memoryManagerNode, mergeState, hf]

/-- At synthesis time, `memory_context` is non-null exactly when the run was
routed through the memory stage and that stage did not fail internally. -/
theorem mc_runUntilSynth (q : String) (mem : MemoryState) (o : Oracle) :
    ((runUntilSynth q mem o).1.memory_context).isSome =
      (decide (routeAfterRouter (routerNode (initialState q) mem o) = "memory_manager") &&
       o.memoryNodeFail.isNone) := by
  unfold runUntilSynth
  by_cases hb : routeAfterRouter (routerNode (initialState q) mem o) = "memory_manager"
  · simp only [hb, if_pos, mc_runSpecialist, decide_True, Bool.true_and]
    cases hf : o.memoryNodeFail
    · obtain ⟨r, hr, hn⟩ := routed_memory_needs _ hb
      simp [mc_memoryManagerNode_ok _ _ _ hf r hr hn]
    · simp [mc_memoryManagerNode_fail _ _ _ _ hf]
  · simp only [hb, if_neg, if_false, mc_runSpecialist, mc_routerNode]
    simp [initialState, hb]

/-- Field equations of a successful synthesizer stage. -/
theorem synth_fields_ok (s : MultiAgentState) (mem : MemoryState) (o : Oracle)
    (hf : o.synthFail = none) :
    (synthesizerNode s mem o).1.final_response = some (mkFinalResponse s) ∧
    (synthesizerNode s mem o).1.error = s.error ∧
    (synthesizerNode s mem o).1.memory_context = s.memory_context ∧
    agentsUsed (synthesizerNode s mem o).1 = agentsUsed s ∧
    (synthesizerNode s mem o).2 =
      storeInteraction mem o.now s.user_query (mkFinalResponse s).answer
        (mkFinalResponse s).agents_involved := by
  refine ⟨?_, ?_, ?_, ?_, ?_⟩ <;> simp [synthesizerNode, mergeState, hf, agentsUsed]

/-- Field equations of a failing synthesizer stage. -/
theorem synth_fields_fail (s : MultiAgentState) (mem : MemoryState) (o : Oracle)
    (m : String) (hf : o.synthFail = some m) :
    (synthesizerNode s mem o).1.final_response =
      some { answer := "Error generating response: " ++ m,
             agents_involved := s.agents_involved, tools_used := s.tools_used,
             memory_accessed := false, confidence := "low" } ∧
    (synthesizerNode s mem o).1.error = some ("Synthesizer error: " ++ m) ∧
    agentsUsed (synthesizerNode s mem o).1 = agentsUsed s ∧
    (synthesizerNode s mem o).2 = mem := by
  refine ⟨?_, ?_, ?_, ?_⟩ <;> simp [synthesizerNode, mergeState, hf, agentsUsed]

/-- A failing synthesizer stage leaves `memory_context` unchanged. -/
theorem synth_fail_mc (s : MultiAgentState) (mem : MemoryState) (o : Oracle)
    (m : String) (hf : o.synthFail = some m) :
    (synthesizerNode s mem o).1.memory_context = s.memory_context := by
  simp [synthesizerNode, mergeState, hf]

/-- The derived contributors list never repeats an agent. -/
theorem agentsUsed_nodup (s : MultiAgentState) : (agentsUsed s).Nodup := by
  unfold agentsUsed
  split <;> split <;> split <;> split <;> decide

/-- One run is the pre-synthesis stages followed by the synthesizer. -/
theorem runPipeline_eq (q : String) (mem : MemoryState) (o : Oracle) :
    runPipeline q mem o =
      synthesizerNode (runUntilSynth q mem o).1 (runUntilSynth q mem o).2 o := rfl

/-- The code example produced by help_with_code is the generated one: the
sandbox step only edits the explanation. -/
theorem helpWithCode_code_example (q : String) (ch : CodeHelp) (ex : Option String) :
    (helpWithCode q (some ch) ex).code_example = ch.code_example := by
  by_cases hc : (optTruthy ch.code_example &&
      isSubstrOf "print" (pyLower (ch.code_example.getD ""))) = true
  · cases ex <;> simp [helpWithCode, hc]
  · simp [helpWithCode, hc]

end MAS

namespace MAS

/-- Claim C1: for every query, memory-store state, and combination of
generator / stage / sandbox outcomes, `process_query` reaches the
synthesizer and returns a state whose `final_response` is present (its
`answer` field is a total string, so it is never null); termination is
witnessed by `runPipeline` being a total function. -/
theorem claim1_always_final_response (q : String) (mem : MemoryState) (o : Oracle) :
    ((runPipeline q mem o).1.final_response).isSome = true := by
  rw [runPipeline_eq]
  cases hf : o.synthFail
  · rw [(synth_fields_ok _ _ _ hf).1]; rfl
  · rw [(synth_fields_fail _ _ _ _ hf).1]; rfl

/-- Claim C2: the keyword fallback of the router checks the four groups in
order with first-match-wins (so any query containing a group-1 token such
as "explain" routes to theory regardless of later groups), sets
`needs_memory` exactly when recent context is non-empty, always clears
`needs_tools`, and is exactly what `route_query` returns when the
generator-backed classification fails. -/
theorem claim2_router_fallback (q : String) (ctx : List Interaction) (mem : MemoryState) :
    (routeQueryFallback q ctx).needs_tools = false
  ∧ ((routeQueryFallback q ctx).needs_memory = true ↔ ctx ≠ [])
  ∧ (anyKeyword theoryKeywords (pyLower q) = true →
       (routeQueryFallback q ctx).query_type = QueryType.theory ∧
       (routeQueryFallback q ctx).target_agents = ["theory_explainer"])
  ∧ (anyKeyword theoryKeywords (pyLower q) = false →
     anyKeyword codeKeywords (pyLower q) = true →
       (routeQueryFallback q ctx).query_type = QueryType.code ∧
       (routeQueryFallback q ctx).target_agents = ["code_helper"])
  ∧ (anyKeyword theoryKeywords (pyLower q) = false →
     anyKeyword codeKeywords (pyLower q) = false →
     anyKeyword planKeywords (pyLower q) = true →
       (routeQueryFallback q ctx).query_type = QueryType.planning ∧
       (routeQueryFallback q ctx).target_agents = ["planner"])
  ∧ (anyKeyword theoryKeywords (pyLower q) = false →
     anyKeyword codeKeywords (pyLower q) = false →
     anyKeyword planKeywords (pyLower q) = false →
       (routeQueryFallback q ctx).query_type = QueryType.general ∧
       (routeQueryFallback q ctx).target_agents = ["theory_explainer"])
  ∧ (isSubstrOf "explain" (pyLower q) = true →
       (routeQueryFallback q ctx).query_type = QueryType.theory)
  ∧ routeQuery mem q none = routeQueryFallback q (retrieveRecent mem 2) := by
  by_cases h1 : anyKeyword theoryKeywords (pyLower q) = true <;>
  by_cases h2 : anyKeyword codeKeywords (pyLower q) = true <;>
  by_cases h3 : anyKeyword planKeywords (pyLower q) = true <;>
  simp [routeQueryFallback, routeQuery, h1, h2, h3, List.length_pos] <;>
  exact Bool.eq_false_iff.mpr
    (fun hx => absurd (mem_imp_any _ "explain" _ (by decide) hx) h1)

/-- Claim C2 witness: a query containing both "explain" and "python" with
non-empty recent context routes to theory with memory requested and no
tools. -/
theorem claim2_router_fallback_witness :
    (routeQueryFallback "explain python decorators" [sampleInteraction]).query_type =
      QueryType.theory
  ∧ (routeQueryFallback "explain python decorators" [sampleInteraction]).needs_memory = true
  ∧ (routeQueryFallback "explain python decorators" [sampleInteraction]).needs_tools = false := by
  have h := claim2_router_fallback "explain python decorators" [sampleInteraction] initMemory
  exact ⟨h.2.2.2.2.2.2.1 (by decide), h.2.1.mpr (by decide), h.1⟩

/-- Claim C3: in every run, the final confidence is "low" exactly when an
error is recorded in the final state, "high" exactly when more than one
distinct agent contributed results and no error is recorded, and "medium"
otherwise; the contributors list is duplicate-free, so its length counts
distinct agents. -/
theorem claim3_confidence_policy (q : String) (mem : MemoryState) (o : Oracle)
    (fr : FinalResponse)
    (h : (runPipeline q mem o).1.final_response = some fr) :
    (fr.confidence = "low" ↔ ((runPipeline q mem o).1.error).isSome = true)
  ∧ (fr.confidence = "high" ↔
      (1 < (agentsUsed (runPipeline q mem o).1).length ∧
       (runPipeline q mem o).1.error = none))
  ∧ (fr.confidence = "medium" ↔
      (¬ 1 < (agentsUsed (runPipeline q mem o).1).length ∧
       (runPipeline q mem o).1.error = none))
  ∧ (agentsUsed (runPipeline q mem o).1).Nodup := by
  rw [runPipeline_eq] at h ⊢
  have herr := errOk_runUntilSynth q mem o
  cases hf : o.synthFail with
  | some m =>
    obtain ⟨h1, h2, h3, _⟩ := synth_fields_fail (runUntilSynth q mem o).1
      (runUntilSynth q mem o).2 o m hf
    rw [h1, Option.some.injEq] at h
    subst h
    rw [h2, h3]
    refine ⟨by simp, by simp, by simp, agentsUsed_nodup _⟩
  | none =>
    obtain ⟨h1, h2, _, h4, _⟩ := synth_fields_ok (runUntilSynth q mem o).1
      (runUntilSynth q mem o).2 o hf
    rw [h1, Option.some.injEq] at h
    subst h
    rw [h2, h4]
    cases he : (runUntilSynth q mem o).1.error with
    | some msg =>
      have htru : optTruthy ((runUntilSynth q mem o).1.error) = true := by
        rw [he] at herr ⊢
        simpa using herr
      have hconf : (mkFinalResponse (runUntilSynth q mem o).1).confidence = "low" := by
        simp [mkFinalResponse, htru]
      rw [hconf]
      refine ⟨by simp, by simp, by simp, agentsUsed_nodup _⟩
    | none =>
      have htr : optTruthy ((runUntilSynth q mem o).1.error) = false := by rw [he]; rfl
      by_cases hl : 1 < (agentsUsed (runUntilSynth q mem o).1).length
      · have hconf : (mkFinalResponse (runUntilSynth q mem o).1).confidence = "high" := by
          simp [mkFinalResponse, htr, hl]
        rw [hconf]
        exact ⟨by simp, by simp [hl], by simp [hl], agentsUsed_nodup _⟩
      · have hconf : (mkFinalResponse (runUntilSynth q mem o).1).confidence = "medium" := by
          simp [mkFinalResponse, htr, hl]
        rw [hconf]
        exact ⟨by simp, by simp [hl], by simp [hl], agentsUsed_nodup _⟩

/-- Claim C3 witness: a run in which the theory stage fails yields the low
confidence tier. -/
theorem claim3_confidence_policy_witness : frC3w.confidence = "low" := by
  have h := claim3_confidence_policy "hi" initMemory oracleC3w frC3w rfl
  exact h.1.mpr rfl

/-- Claim C4 counterexample: in the run where a memory retrieve succeeded
(`memory_context` is non-null at synthesis time) but the synthesizer's merge
logic throws, `memory_accessed` is false, so "for every run,
memory_accessed iff the lookup ran / memory_context is non-null" fails as
stated. -/
theorem claim4_memory_accessed_cx :
    ((runPipeline "what did we discuss" initMemory oracleC4cx).1.memory_context).isSome = true
  ∧ ((runPipeline "what did we discuss" initMemory oracleC4cx).1.final_response.map
      (fun fr => fr.memory_accessed)) = some false := ⟨rfl, rfl⟩

/-- Claim C4 (amended): in every run whose synthesizer does not itself
fail, `memory_accessed` is true iff `memory_context` is non-null at
synthesis; when the synthesizer fails internally `memory_accessed` is
hard-coded false; and `memory_context` is non-null iff the run was routed
through the memory stage and that stage did not fail (a retrieve then
always runs, regardless of whether it found anything). -/
theorem claim4_memory_accessed_amended (q : String) (mem : MemoryState) (o : Oracle)
    (fr : FinalResponse)
    (h : (runPipeline q mem o).1.final_response = some fr) :
    (o.synthFail = none →
      fr.memory_accessed = ((runPipeline q mem o).1.memory_context).isSome)
  ∧ (∀ m, o.synthFail = some m → fr.memory_accessed = false)
  ∧ (((runPipeline q mem o).1.memory_context).isSome =
      (decide (routeAfterRouter (routerNode (initialState q) mem o) = "memory_manager") &&
       o.memoryNodeFail.isNone)) := by
  rw [runPipeline_eq] at h ⊢
  refine ⟨?_, ?_, ?_⟩
  · intro hf
    obtain ⟨h1, _, h3, _, _⟩ := synth_fields_ok _ _ o hf
    rw [h1, Option.some.injEq] at h
    subst h
    rw [h3]
    rfl
  · intro m hf
    obtain ⟨h1, _, _, _⟩ := synth_fields_fail _ _ o m hf
    rw [h1, Option.some.injEq] at h
    subst h
    rfl
  · cases hf : o.synthFail
    · rw [(synth_fields_ok _ _ o hf).2.2.1]
      exact mc_runUntilSynth q mem o
    · rw [synth_fail_mc _ _ o _ hf]
      exact mc_runUntilSynth q mem o

/-- Claim C4 (amended) witness: the same retrieve run with a healthy
synthesizer reports `memory_accessed = true`. -/
theorem claim4_memory_accessed_amended_witness : frC4w.memory_accessed = true := by
  have h := claim4_memory_accessed_amended "what did we discuss" initMemory oracleC4w
    frC4w rfl
  rw [h.1 rfl]
  rfl

/-- Claim C5: after more than 20 stored interactions starting from a fresh
store, the session history is exactly the most recent 20 entries in
insertion order (oldest evicted first), so its length is 20. -/
theorem claim5_history_bound (calls : List Interaction) (h : 20 < calls.length) :
    (storeAll calls).session_history = (calls.map truncEntry).drop (calls.length - 20)
    ∧ (storeAll calls).session_history.length = 20 := by
  have hh := storeAllFrom_hist initMemory (by simp [initMemory]) calls
  unfold storeAll
  rw [hh]
  have h1 : initMemory.session_history = [] := rfl
  unfold takeLast
  rw [h1, List.nil_append, List.length_map, List.length_drop, List.length_map]
  exact ⟨rfl, by omega⟩

/-- Claim C5 witness: the 21st store evicts exactly the 1st entry. -/
theorem claim5_history_bound_witness :
    20 < calls21.length
  ∧ (storeAll calls21).session_history =
      (calls21.map truncEntry).drop (calls21.length - 20)
  ∧ (storeAll calls21).session_history.length = 20 :=
  ⟨by decide, (claim5_history_bound calls21 (by decide)).1,
    (claim5_history_bound calls21 (by decide)).2⟩

/-- Claim C6: if the synthesizer's merge logic throws, the caller still
receives a FinalResponse whose answer is the literal error text, with
confidence "low" and `memory_accessed` false, and the session history is
left exactly as it was at the start of the run (the history append is
skipped). -/
theorem claim6_synth_failure_fallback (q : String) (mem : MemoryState) (o : Oracle)
    (m : String) (hf : o.synthFail = some m) :
    (runPipeline q mem o).1.final_response =
      some { answer := "Error generating response: " ++ m,
             agents_involved := (runUntilSynth q mem o).1.agents_involved,
             tools_used := (runUntilSynth q mem o).1.tools_used,
             memory_accessed := false, confidence := "low" }
  ∧ (runPipeline q mem o).2.session_history = mem.session_history := by
  rw [runPipeline_eq]
  refine ⟨(synth_fields_fail _ _ o m hf).1, ?_⟩
  rw [(synth_fields_fail _ _ o m hf).2.2.2]
  exact hist_runUntilSynth q mem o

/-- Claim C6 witness: a concrete run with a failing synthesizer. -/
theorem claim6_synth_failure_fallback_witness :
    (runPipeline "hello" initMemory oracleC6w).1.final_response =
      some { answer := "Error generating response: " ++ "merge blew up",
             agents_involved := (runUntilSynth "hello" initMemory oracleC6w).1.agents_involved,
             tools_used := (runUntilSynth "hello" initMemory oracleC6w).1.tools_used,
             memory_accessed := false, confidence := "low" }
  ∧ (runPipeline "hello" initMemory oracleC6w).2.session_history =
      initMemory.session_history :=
  claim6_synth_failure_fallback "hello" initMemory oracleC6w "merge blew up" rfl

set_option maxRecDepth 8192 in
/-- Claim C7 (code bug): the memory stage is only reachable when
`needs_memory` is set, and the node then forces action "retrieve", so the
query "remember that I like Go" yields a MemoryUpdate with action
"retrieve", never "store"; the "user_preferences" profile entry stays
unwritten, and the final answer is the retrieved-context section rather
than the no-specialist fallback text.  The last conjunct shows the agent's
own auto-resolution logic would have chosen the store action the claim
describes, which the node's forced "retrieve" makes unreachable. -/
theorem claim7_store_scenario_eval :
    ((runPipeline "remember that I like Go" initMemory oracleC7).1.memory_update.map
      (fun u => u.action)) = some "retrieve"
  ∧ profileGet (runPipeline "remember that I like Go" initMemory oracleC7).2.user_profile
      "user_preferences" = none
  ∧ ((runPipeline "remember that I like Go" initMemory oracleC7).1.final_response.map
      (fun fr => fr.answer)) =
      some "## Context from Previous Conversations\n\nNo previous context found...\n\n"
  ∧ manageMemory initMemory "remember that I like Go" "auto" =
      { action := "store", key := "user_preference",
        value := some "remember that I like Go", retrieved_context := none,
        reasoning := "Storing user preference or information" } :=
  ⟨rfl, rfl, rfl, rfl⟩

set_option maxRecDepth 8192 in
/-- Claim C8 counterexample: a run whose generated code example is
non-empty but contains no print call still marks "code_executor" used, so
"marked used exactly when non-empty and contains a print-style call" fails
as stated. -/
theorem claim8_code_executor_cx :
    optTruthy chNoPrint.code_example = true
  ∧ isSubstrOf "print" (pyLower (chNoPrint.code_example.getD "")) = false
  ∧ ((runPipeline "implement a stack" initMemory oracleC8cx).1.final_response.map
      (fun fr => fr.tools_used.contains "code_executor")) = some true :=
  ⟨rfl, rfl, rfl⟩

/-- Claim C8 (amended): in the code stage with a successful generator call,
"Python" is appended to coding_languages iff the query contains "python"
(case-insensitive); the sandbox is invoked iff the code example is
non-empty and contains "print" (case-insensitive), and its output is
appended to the explanation when the invocation succeeds; but
"code_executor" is marked used iff the code example is non-empty,
regardless of any print call. -/
theorem claim8_code_stage_amended (s : MultiAgentState) (mem : MemoryState) (o : Oracle)
    (ch : CodeHelp) (hg : o.codeGen = some ch) (hf : o.codeNodeFail = none)
    (ht : "code_executor" ∉ s.tools_used) :
    ((codeHelperNode s mem o).2 =
      (if isSubstrOf "python" (pyLower s.user_query) then
        updateUserProfile mem "coding_languages" "Python" else mem))
  ∧ ("code_executor" ∈ (codeHelperNode s mem o).1.tools_used ↔
      optTruthy ch.code_example = true)
  ∧ (∀ out, optTruthy ch.code_example = true →
      isSubstrOf "print" (pyLower (ch.code_example.getD "")) = true →
      o.codeExec = some out →
      (codeHelperNode s mem o).1.code_help =
        some { ch with explanation := ch.explanation ++ "\n\nExecution result: " ++ out })
  ∧ ((optTruthy ch.code_example &&
      isSubstrOf "print" (pyLower (ch.code_example.getD ""))) = false →
      (codeHelperNode s mem o).1.code_help = some ch) := by
  refine ⟨?_, ?_, ?_, ?_⟩
  · simp [codeHelperNode, hf, hg]
  · by_cases hce : optTruthy ch.code_example = true
    · simp [codeHelperNode, mergeState, hf, hg, helpWithCode_code_example, hce]
    · simp [codeHelperNode, mergeState, hf, hg, helpWithCode_code_example, hce, ht]
  · intro out hce hpr hex
    simp [codeHelperNode, mergeState, hf, hg, helpWithCode, hce, hpr, hex]
  · intro hcond
    simp [codeHelperNode, mergeState, hf, hg, helpWithCode, hcond]

/-- Claim C8 (amended) witness: a print-bearing example whose sandbox run
succeeds has the output appended to the explanation. -/
theorem claim8_code_stage_amended_witness :
    (codeHelperNode stateC8 initMemory oracleC8w).1.code_help =
      some { chPrint with
        explanation := chPrint.explanation ++ "\n\nExecution result: " ++ "1\n" } := by
  have h := claim8_code_stage_amended stateC8 initMemory oracleC8w chPrint rfl rfl
    (by decide)
  exact h.2.2.1 "1\n" (by decide) (by decide) rfl

/-- Claim C9: profile lists are deduplicated append-only: updating a
list-valued key with an already-present value is the identity, and updating
any of the three predefined list keys twice with the same value from a
fresh store leaves exactly one copy. -/
theorem claim9_profile_dedup (m : MemoryState) (k v : String) (xs : List String)
    (x kk : String) :
    (profileGet m.user_profile k = some (.lst xs) → v ∈ xs →
      updateUserProfile m k v = m)
  ∧ ((kk = "topics_asked" ∨ kk = "coding_languages" ∨ kk = "study_goals") →
      profileGet (updateUserProfile
        (updateUserProfile initMemory kk x) kk x).user_profile kk
        = some (.lst [x])) := by
  constructor
  · intro h hv
    simp [updateUserProfile, h, hv]
  · rintro (rfl | rfl | rfl) <;>
    simp [updateUserProfile, profileGet, profileSet, initMemory]

/-- Claim C9 witness: storing "recursion" twice under topics_asked from a
fresh store yields the singleton list. -/
theorem claim9_profile_dedup_witness :
    updateUserProfile (updateUserProfile initMemory "topics_asked" "recursion")
      "topics_asked" "recursion" = updateUserProfile initMemory "topics_asked" "recursion"
  ∧ profileGet (updateUserProfile (updateUserProfile initMemory "topics_asked" "recursion")
      "topics_asked" "recursion").user_profile "topics_asked" = some (.lst ["recursion"]) := by
  refine ⟨(claim9_profile_dedup (updateUserProfile initMemory "topics_asked" "recursion")
      "topics_asked" "recursion" ["recursion"] "x" "k").1 (by decide) (by decide),
    (claim9_profile_dedup initMemory "k" "v" [] "recursion" "topics_asked").2 (Or.inl rfl)⟩

/-- Claim C10: for any key other than the three predefined list keys —
including "user_preferences", the key the memory stage's store path writes
— the raw string value is stored as a scalar under that key, and a second
update of the same key overwrites it (last-write-wins); no deduplicated
append happens there. -/
theorem claim10_profile_scalar_overwrite (k v w : String) (h1 : k ≠ "topics_asked")
    (h2 : k ≠ "coding_languages") (h3 : k ≠ "study_goals") :
    profileGet (updateUserProfile initMemory k v).user_profile k
      = some (.str v)
  ∧ profileGet (updateUserProfile
      (updateUserProfile initMemory k v) k w).user_profile k
      = some (.str w) := by
  simp [updateUserProfile, profileGet, profileSet, initMemory,
    Ne.symm h1, Ne.symm h2, Ne.symm h3]

/-- Claim C10 witness: two successive writes to "user_preferences"
demonstrate raw storage then overwrite. -/
theorem claim10_profile_scalar_overwrite_witness :
    profileGet (updateUserProfile initMemory "user_preferences"
      "remember that I like Go").user_profile "user_preferences" =
      some (.str "remember that I like Go")
  ∧ profileGet (updateUserProfile (updateUserProfile initMemory "user_preferences"
      "likes Go") "user_preferences" "likes Rust").user_profile "user_preferences" =
      some (.str "likes Rust") := by
  refine ⟨(claim10_profile_scalar_overwrite "user_preferences" "remember that I like Go" "x"
      (by decide) (by decide) (by decide)).1,
    (claim10_profile_scalar_overwrite "user_preferences" "likes Go" "likes Rust"
      (by decide) (by decide) (by decide)).2⟩

end MAS
